import Mathlib

/-!
Verification of the Photo Catalog Explorer Engine (src/snekframe/photos/container.py)
against its natural-language specification.

Shallow embedding notes:
* `PhotoDirectorySelection` mirrors the enum in container.py; the middle
  constructor is called `Part` here, standing for the source's `Partial` member.
* The Catalog Store (PhotoListV1 rows) and the Aggregate Store (NumPhotos rows)
  are modelled at the interface container.py assumes: photo rows carry a
  `selected` field with default `false` on insert (db/_v1.py:
  `selected: Mapped[bool] = mapped_column(insert_default=False)`), aggregate
  rows carry an integer `selected` column that container.py reads through
  `PhotoDirectorySelection.value_to_enum` and writes through `.value`.
  (db/runtime.py is mid-refactor - it misspells its sqlalchemy import and omits
  the `selected` column - so container.py, which every claim cites, is taken as
  the authority for the store interface.)
* Python exceptions are modelled as `Except.error ()`: any raise
  (`raise Exception()`, `NoResultFound` from `.one()`, `KeyError` from
  `value_to_enum`, attribute errors) is an error outcome.
* SQL comparison semantics: a SQLAlchemy filter `column == value` with a Python
  `None` compiles to `IS NULL`, and a comparison against a string never matches
  a NULL cell.  Both are exactly `Option` equality, which the model uses.
-/

namespace Snekframe

/-- Tri-state selection value (`PhotoDirectorySelection` in container.py).
`Part` is the source's `Partial` member. Stored integer values: Not = 0,
Partial = 1, All = 2. -/
inductive PhotoDirectorySelection where
  | Not
  | Part
  | All
deriving DecidableEq, Repr

/-- The `.value` of each enum member (container.py lines 99-102). -/
def PhotoDirectorySelection.val : PhotoDirectorySelection → Nat
  | .Not => 0
  | .Part => 1
  | .All => 2

/-- `PhotoDirectorySelection.value_to_enum` (container.py lines 104-109):
returns the member with the given value, raising `KeyError` (here: `none`)
otherwise. -/
def PhotoDirectorySelection.value_to_enum (v : Nat) : Option PhotoDirectorySelection :=
  if v = PhotoDirectorySelection.Not.val then some .Not
  else if v = PhotoDirectorySelection.Part.val then some .Part
  else if v = PhotoDirectorySelection.All.val then some .All
  else none

/-! ## Facade response channel and `get_view_update` (claims C3, C10) -/

/-- Direction argument of a `GoToPage` request (container.py lines 27-30). -/
inductive PageDirection where
  | Up
  | Previous
  | Next
deriving DecidableEq, Repr

/-- A message on the worker -> foreground response channel.  `displayNewPage`
models the `DisplayNewPage` dataclass; `update` abstracts the `ViewUpdate`
family (`NameViewUpdate`, `SelectViewUpdate`, `DirectionsUpdate`,
`FullImageViewUpdate`), which all carry a `current_page_id`; the payload field
stands for the rest of the dataclass. -/
inductive RespMsg where
  | displayNewPage (title : Option String) (directory : Bool) (new_page_id : Nat)
  | update (current_page_id : Nat) (payload : Nat)
deriving DecidableEq, Repr

/-- The `current_page_id` carried by a `ViewUpdate`-family message. -/
def RespMsg.updateId : RespMsg → Option Nat
  | .displayNewPage _ _ _ => none
  | .update pid _ => some pid

/-- The drain loop of `_FileSystemExplorer.get_view_update`
(container.py lines 218-229): pop messages until the queue is empty
(return `none`), raising on a `DisplayNewPage`, skipping a `ViewUpdate` whose
page id is below the current page, raising on one above it, and returning the
first one that matches.  Returns the remaining queue alongside the result. -/
def pollLoop (cur : Nat) : List RespMsg → Except Unit (List RespMsg × Option RespMsg)
  | [] => Except.ok ([], none)
  | m :: rest =>
    match m with
    | .displayNewPage _ _ _ => Except.error ()
    | .update pid _ =>
      if pid < cur then pollLoop cur rest
      else if pid > cur then Except.error ()
      else Except.ok (rest, some m)

/-- `_FileSystemExplorer.get_view_update` (container.py lines 213-229),
including the initial guard (raise while `_opening_page` or before any page is
displayed). -/
def get_view_update (openingPage : Bool) (curId : Option Nat) (queue : List RespMsg) :
    Except Unit (List RespMsg × Option RespMsg) :=
  if openingPage then Except.error ()
  else
    match curId with
    | none => Except.error ()
    | some cur => pollLoop cur queue

/-- A message on the foreground -> worker request channel
(container.py lines 32-67). -/
inductive RequestMsg where
  | goIntoPage (current_page_id : Nat) (into_index : Nat)
  | goToPage (current_page_id : Nat) (direction : PageDirection)
  | selectItem (current_page_id : Nat) (index : Nat) (sel : Bool)
  | selectAll (current_page_id : Nat) (sel : Bool)
  | commitChanges (save : Bool)
deriving DecidableEq, Repr

/-- Foreground-side state of `_FileSystemExplorer`: `_opening_page`,
`_current_displayed_page_id` and the request queue contents. -/
structure FacadeState where
  opening : Bool
  currentId : Option Nat
  requests : List RequestMsg
deriving DecidableEq, Repr

/-- Shared validation prologue of the four request methods
(container.py lines 142-145, 156-159, 170-173, 184-187): raise while a page is
opening, or before a page is displayed, or when the caller's page id is not the
currently displayed one. -/
def facadeGuard (st : FacadeState) (current_page_id : Nat) : Bool :=
  st.opening || match st.currentId with
    | none => true
    | some c => decide (c ≠ current_page_id)

/-- `_FileSystemExplorer.request_go_into_page` (container.py lines 140-153). -/
def request_go_into_page (st : FacadeState) (current_page_id index : Nat) :
    Except Unit FacadeState :=
  if facadeGuard st current_page_id then Except.error ()
  else Except.ok { st with
    opening := true
    requests := st.requests ++ [RequestMsg.goIntoPage current_page_id index] }

/-- `_FileSystemExplorer.request_goto_page` (container.py lines 155-167). -/
def request_goto_page (st : FacadeState) (current_page_id : Nat) (direction : PageDirection) :
    Except Unit FacadeState :=
  if facadeGuard st current_page_id then Except.error ()
  else Except.ok { st with
    opening := true
    requests := st.requests ++ [RequestMsg.goToPage current_page_id direction] }

/-- `_FileSystemExplorer.request_selection` (container.py lines 169-181). -/
def request_selection (st : FacadeState) (current_page_id index : Nat) (sel : Bool) :
    Except Unit FacadeState :=
  if facadeGuard st current_page_id then Except.error ()
  else Except.ok { st with
    requests := st.requests ++ [RequestMsg.selectItem current_page_id index sel] }

/-- `_FileSystemExplorer.request_select_all` (container.py lines 183-194). -/
def request_select_all (st : FacadeState) (current_page_id : Nat) (sel : Bool) :
    Except Unit FacadeState :=
  if facadeGuard st current_page_id then Except.error ()
  else Except.ok { st with
    requests := st.requests ++ [RequestMsg.selectAll current_page_id sel] }

/-! ## Store rows and the session-pair transaction model (claim C2) -/

/-- A Catalog Store row (`PhotoListV1` in db/_v1.py, restricted to the fields
container.py touches).  The `selected` column defaults to `false` on insert. -/
structure PhotoRow where
  rowid : Nat
  path : String
  filename : String
  selected : Bool
deriving DecidableEq, Repr

/-- An Aggregate Store row (`NumPhotos` in db/runtime.py plus the `selected`
integer column container.py reads and writes).  `parent_path` is the source's
`prefix_path` column; `none` models SQL NULL. -/
structure NumPhotosRow where
  parent_path : Option String
  directory : Option String
  num_photos : Nat
  num_albums : Nat
  selected : Nat
deriving DecidableEq, Repr

/-- A deferred Catalog Store write issued during an explorer session:
`update(PhotoListV1).where(PhotoListV1.id == id).values(selected=value)`
(container.py lines 602-604). -/
structure CatalogEdit where
  rowid : Nat
  value : Bool
deriving DecidableEq, Repr

/-- A deferred Aggregate Store write issued during an explorer session:
`update(NumPhotos).where(prefix_path == p, directory == d).values(selected=v)`
(container.py lines 705-707, 718-720, 745-747). -/
structure AggregateEdit where
  parent_path : Option String
  directory : Option String
  value : Nat
deriving DecidableEq, Repr

/-- Apply one deferred Catalog Store write to the committed table. -/
def applyCatalogEdit (db : List PhotoRow) (e : CatalogEdit) : List PhotoRow :=
  db.map fun r => if r.rowid = e.rowid then { r with selected := e.value } else r

/-- Apply one deferred Aggregate Store write to the committed table. -/
def applyAggregateEdit (db : List NumPhotosRow) (e : AggregateEdit) : List NumPhotosRow :=
  db.map fun r =>
    if r.parent_path = e.parent_path && r.directory = e.directory then
      { r with selected := e.value }
    else r

/-- The pair of open store sessions held by `_explorer_thread` for the life of
one explorer session (container.py line 294).  Each session is its committed
table plus the transaction's pending (not yet committed) writes, matching the
snapshot-per-transaction store contract of spec section 6. -/
structure SessionPair where
  runtimeCommitted : List NumPhotosRow
  runtimePending : List AggregateEdit
  persistentCommitted : List PhotoRow
  persistentPending : List CatalogEdit
deriving DecidableEq, Repr

/-- One selection edit of an explorer session, as the store-level writes it
defers into one of the two open sessions. -/
inductive SessionEdit where
  | runtime (e : AggregateEdit)
  | persistent (e : CatalogEdit)
deriving DecidableEq, Repr

/-- `session.execute(update(...))` inside the open transaction: the write is
deferred until commit. -/
def SessionPair.exec (s : SessionPair) : SessionEdit → SessionPair
  | .runtime e => { s with runtimePending := s.runtimePending ++ [e] }
  | .persistent e => { s with persistentPending := s.persistentPending ++ [e] }

/-- Apply the selection edits E1..En of a session in order. -/
def SessionPair.execAll (s : SessionPair) (es : List SessionEdit) : SessionPair :=
  es.foldl SessionPair.exec s

/-- The worker's `CommitChanges` handler (container.py lines 553-558):
`for session in (runtime_session, persistent_session):` commit both when
`save`, roll both back otherwise. -/
def commitChangesHandler (save : Bool) (s : SessionPair) : SessionPair :=
  if save then
    { runtimeCommitted := s.runtimePending.foldl applyAggregateEdit s.runtimeCommitted
      runtimePending := []
      persistentCommitted := s.persistentPending.foldl applyCatalogEdit s.persistentCommitted
      persistentPending := [] }
  else
    { s with runtimePending := [], persistentPending := [] }

/-- The Aggregate Store writes among a session's edits, in order. -/
def runtimeEdits (es : List SessionEdit) : List AggregateEdit :=
  es.filterMap fun e => match e with
    | .runtime a => some a
    | .persistent _ => none

/-- The Catalog Store writes among a session's edits, in order. -/
def persistentEdits (es : List SessionEdit) : List CatalogEdit :=
  es.filterMap fun e => match e with
    | .runtime _ => none
    | .persistent c => some c

/-! ## Catalog Model: selection state, getters and propagation (claims C1, C4, C8)

`PhotoInfo` / `CurrentDirectoryInfo` objects with their pages loaded form a
tree; a node is addressed by its reversed child-index path (root = `[]`).
The model keeps the stores and the objects' private `_selection` caches as
explicit state.  Python's dynamic typing matters here (the directory `selected`
getter falls through without a `return`, so it yields `None`; `_child_changed`
receives both `bool` and enum arguments), so runtime values are modelled by
`PyVal`. -/

/-- A Python value flowing through the selection code: `None`, a `bool`, or a
`PhotoDirectorySelection` member. -/
inductive PyVal where
  | none
  | bool (b : Bool)
  | sel (s : PhotoDirectorySelection)
deriving DecidableEq, Repr

/-- Python truthiness of a `PyVal`: `None` is falsy, a bool is itself, an enum
member is truthy. -/
def PyVal.truthy : PyVal → Bool
  | .none => false
  | .bool b => b
  | .sel _ => true

/-- A Catalog Model node with its pages loaded: a `PhotoInfo` (keyed by its
Catalog Store row id) or a `CurrentDirectoryInfo` (keyed by its Aggregate Store
row) together with the loaded page contents, flattened in page order
(subdirectories before photos, as `_load_pages` appends them). -/
inductive Node where
  | photo (pid : Nat)
  | dir (did : Nat) (children : List Node)

/-- The node reached from `n` by following child indices. -/
def Node.atPath : Node → List Nat → Option Node
  | n, [] => some n
  | .photo _, _ :: _ => none
  | .dir _ cs, i :: p =>
    match cs.get? i with
    | some c => Node.atPath c p
    | none => none

/-- Store and cache state for the selection code: the Catalog Store `selected`
column by photo row id, the Aggregate Store `selected` column by directory row
key, and the objects' private `_selection` caches. -/
structure SelStores where
  photoDB : Nat → PyVal
  dirDB : Nat → Nat
  photoCache : Nat → PyVal
  dirCache : Nat → Option PhotoDirectorySelection

/-- `PhotoInfo.selected` getter (container.py lines 587-594): load the flag
from the Catalog Store into `_selection` if not cached, then return the cached
value. -/
def photoSelectedGet (s : SelStores) (pid : Nat) : SelStores × PyVal :=
  match s.photoCache pid with
  | .none =>
    let v := s.photoDB pid
    ({ s with photoCache := fun i => if i = pid then v else s.photoCache i }, v)
  | v => (s, v)

/-- `CurrentDirectoryInfo.selected` getter (container.py lines 689-697): if
`_selection` is `None`, load it from the Aggregate Store through
`value_to_enum` (raising `KeyError` on an invalid stored integer).  The method
body then ends WITHOUT a return statement, so the property always evaluates to
Python `None`. -/
def dirSelectedGet (s : SelStores) (did : Nat) : Except Unit (SelStores × PyVal) :=
  match s.dirCache did with
  | some _ => Except.ok (s, PyVal.none)
  | none =>
    match PhotoDirectorySelection.value_to_enum (s.dirDB did) with
    | none => Except.error ()
    | some v =>
      Except.ok ({ s with dirCache := fun i => if i = did then some v else s.dirCache i },
        PyVal.none)

/-- Read `item.selected` on either node kind. -/
def readSelected (s : SelStores) : Node → Except Unit (SelStores × PyVal)
  | .photo pid => Except.ok (photoSelectedGet s pid)
  | .dir did _ => dirSelectedGet s did

/-- The child scan inside `CurrentDirectoryInfo._child_changed`
(container.py lines 728-743), over the pages flattened into one child list:
starting from the tentative total, abort the whole method on a `Partial` child
(the early `return`, encoded as result `none`), downgrade the total to
`Partial` and stop on the first disagreeing child, else keep folding.  Each
`item.selected` read threads its cache side effects. -/
def scanChildren (total : PhotoDirectorySelection) :
    List Node → SelStores → Except Unit (SelStores × Option PhotoDirectorySelection)
  | [], s => Except.ok (s, some total)
  | c :: rest, s =>
    match readSelected s c with
    | .error e => .error e
    | .ok (s1, v) =>
      if v = PyVal.sel .Part then Except.ok (s1, none)
      else
        let itemSel : PyVal :=
          match v with
          | .bool b => .sel (if b then .All else .Not)
          | w => w
        if itemSel ≠ PyVal.sel total then Except.ok (s1, some .Part)
        else scanChildren total rest s1

/-- `CurrentDirectoryInfo._child_changed` (container.py lines 715-749), invoked
on the directory at reversed path `rp` inside the loaded tree `root`.
If the child's new state is `Partial`: cache and store `Partial` and notify the
parent.  Otherwise recompute the total over all children and, when it differs
from the cached `_selection`, write it to the Aggregate Store (WITHOUT
refreshing `_selection`) and notify the parent. -/
def childChanged (root : Node) : List Nat → PyVal → SelStores → Except Unit SelStores
  | rp, selection, s =>
    match Node.atPath root rp.reverse with
    | none => Except.ok s
    | some (.photo _) => Except.ok s
    | some (.dir did children) =>
      if selection = PyVal.sel .Part then
        let s1 : SelStores := { s with
          dirCache := fun i => if i = did then some .Part else s.dirCache i
          dirDB := fun i => if i = did then PhotoDirectorySelection.Part.val else s.dirDB i }
        match rp with
        | [] => Except.ok s1
        | _ :: rparent => childChanged root rparent (PyVal.sel .Part) s1
      else
        let total0 : PhotoDirectorySelection := if selection.truthy then .All else .Not
        match scanChildren total0 children s with
        | .error e => .error e
        | .ok (s1, none) => Except.ok s1
        | .ok (s1, some total) =>
          if s1.dirCache did ≠ some total then
            let s2 : SelStores := { s1 with
              dirDB := fun i => if i = did then total.val else s1.dirDB i }
            match rp with
            | [] => Except.ok s2
            | _ :: rparent => childChanged root rparent (PyVal.sel total) s2
          else Except.ok s1

mutual

/-- `_set_selected(selection, propagate_up=False)` on either node kind
(container.py lines 600-606 and 703-713): update the store if the guard sees a
change, skip the parent notification, and for a directory push the same value
into every child.  The directory guard evaluates `self.selected` once (the
buggy getter, which yields `None`), so it always passes. -/
def setSelectedNoUp : Node → PyVal → SelStores → Except Unit SelStores
  | .photo pid, selection, s =>
    let (s1, v) := photoSelectedGet s pid
    if selection ≠ v then
      Except.ok { s1 with photoDB := fun i => if i = pid then selection else s1.photoDB i }
    else Except.ok s1
  | .dir did children, selection, s =>
    match dirSelectedGet s did with
    | .error e => .error e
    | .ok (s1, v) =>
      if (if selection.truthy then v ≠ PyVal.sel .All else v ≠ PyVal.sel .Not) then
        let s2 : SelStores := { s1 with
          dirDB := fun i =>
            if i = did then
              (if selection.truthy then PhotoDirectorySelection.All.val
               else PhotoDirectorySelection.Not.val)
            else s1.dirDB i }
        setSelectedNoUpList children selection s2
      else Except.ok s1

/-- Down-propagation loop of `CurrentDirectoryInfo._set_selected`
(container.py lines 710-713), over the pages flattened into one child list. -/
def setSelectedNoUpList : List Node → PyVal → SelStores → Except Unit SelStores
  | [], _, s => Except.ok s
  | c :: rest, selection, s =>
    match setSelectedNoUp c selection s with
    | .error e => .error e
    | .ok s1 => setSelectedNoUpList rest selection s1

end

/-- Assignment `node.selected = selection` with full propagation (the
`selected` setters, container.py lines 596-598 and 699-701), on the node at
reversed path `rp` of the loaded tree `root`.  A photo updates its store row if
changed and notifies its parent directory; a directory updates its row (guard
passing as above), notifies its parent (lines 708-709), then pushes the value
down to every child (lines 710-713). -/
def setSelectedAt (root : Node) (rp : List Nat) (selection : PyVal) (s : SelStores) :
    Except Unit SelStores :=
  match Node.atPath root rp.reverse with
  | none => Except.error ()
  | some (.photo pid) =>
    let (s1, v) := photoSelectedGet s pid
    if selection ≠ v then
      let s2 : SelStores :=
        { s1 with photoDB := fun i => if i = pid then selection else s1.photoDB i }
      match rp with
      | [] => Except.ok s2
      | _ :: rparent => childChanged root rparent selection s2
    else Except.ok s1
  | some (.dir did children) =>
    match dirSelectedGet s did with
    | .error e => .error e
    | .ok (s1, v) =>
      if (if selection.truthy then v ≠ PyVal.sel .All else v ≠ PyVal.sel .Not) then
        let s2 : SelStores := { s1 with
          dirDB := fun i =>
            if i = did then
              (if selection.truthy then PhotoDirectorySelection.All.val
               else PhotoDirectorySelection.Not.val)
            else s1.dirDB i }
        match
          (match rp with
           | [] => Except.ok s2
           | _ :: rparent => childChanged root rparent selection s2) with
        | .error e => .error e
        | .ok s3 => setSelectedNoUpList children selection s3
      else Except.ok s1

/-- The current tri-state of a node as recorded in the stores: a photo's
`selected` flag read as `All`/`Not` (or the raw tri-state if one was stored
into the boolean column), a directory's aggregate row decoded by
`value_to_enum`. -/
def storedState (s : SelStores) : Node → Option PhotoDirectorySelection
  | .photo pid =>
    match s.photoDB pid with
    | .bool b => some (if b then .All else .Not)
    | .sel v => some v
    | .none => none
  | .dir did _ => PhotoDirectorySelection.value_to_enum (s.dirDB did)

/-- The stored tri-states of a directory node's children. -/
def childStoredStates (s : SelStores) : Node → List PhotoDirectorySelection
  | .photo _ => []
  | .dir _ cs => cs.filterMap (storedState s)

/-- Combination rule written from the spec's words (section 3): combining
children that are all `All` yields `All`, all `Not` yields `Not`, and any
disagreement or any `Partial` child yields `Partial`. -/
def specCombine (l : List PhotoDirectorySelection) : Option PhotoDirectorySelection :=
  match l with
  | [] => none
  | _ :: _ =>
    some (if l.all (· = .All) then .All
      else if l.all (· = .Not) then .Not
      else .Part)

/-! ## Scanner (`PhotoContainer.rescan`, claims C9 and C7) -/

/-- `str()` of a pathlib relative path given by its segments: the empty
relative path prints as `"."`, otherwise the segments joined by `"/"`. -/
def pyPathStr (segs : List String) : String :=
  if segs = [] then "." else String.intercalate "/" segs

/-- `os.path.join` for the two-argument uses in container.py: joining onto the
empty string yields the second component, otherwise the parts are separated by
`"/"` (so `os.path.join(".", f)` is `"./" ++ f`). -/
def pyJoin (p q : String) : String :=
  if p = "" then q else p ++ "/" ++ q

/-- A filesystem entry under the photo root, as `rescan`'s walk observes it:
a file together with the verdict of the `is_file_image` predicate, or a
subdirectory with its entries in iteration order. -/
inductive FSEntry where
  | file (name : String) (isImage : Bool)
  | dir (name : String) (entries : List FSEntry)

/-- The `(prefix_path, directory)` pair `scan_directory` stores for a
directory given by its segments (container.py lines 856-861): both NULL for
the root, NULL prefix for a depth-one directory (whose pathlib parent is
`Path(".")`), else the parent path string and the final segment. -/
def scanRowKey : List String → Option String × Option String
  | [] => (none, none)
  | [a] => (none, some a)
  | a :: b :: rest =>
    (some (String.intercalate "/" ((a :: b :: rest).dropLast)),
     some ((a :: b :: rest).getLast (List.cons_ne_nil _ _)))

/-- Folding one photo's selected flag into `directory_selected`
(container.py lines 842-851). -/
def combinePhotoSel (cur : Option PhotoDirectorySelection) (photoSel : Bool) :
    Option PhotoDirectorySelection :=
  match cur with
  | none => some (if photoSel then .All else .Not)
  | some .Part => some .Part
  | some .All => if photoSel then some .All else some .Part
  | some .Not => if photoSel then some .Part else some .Not

/-- Folding a qualifying subdirectory's selection into `directory_selected`
(container.py lines 813-819). -/
def combineDirSel (cur inner : Option PhotoDirectorySelection) :
    Option PhotoDirectorySelection :=
  match cur with
  | none => inner
  | some c =>
    if inner = some .Part then some .Part
    else if inner ≠ some c then some .Part
    else some c

/-- State threaded through a rescan: the Catalog Store table (with the next
autoincrement id), the runtime `ExistingFiles` reconciliation rows
`(photo_path, found)`, the `NumPhotos` rows written so far, and the running
totals. -/
structure ScanState where
  persistentDB : List PhotoRow
  nextId : Nat
  existing : List (String × Bool)
  aggRows : List NumPhotosRow
  totalPhotos : Nat
  totalAlbums : Nat
deriving DecidableEq, Repr

/-- Handling of one image file at `segs ++ [name]` (container.py lines
822-840): mark its `ExistingFiles` row found via an UPDATE..RETURNING keyed by
`str(relative_path)` (`.one_or_none()` raising on multiple matches); if no row
matched, insert a new `PhotoListV1` record (whose `selected` column defaults
to `false`) and treat the photo as unselected, otherwise read the catalogued
row's `selected` flag with `.one()`.  Returns `photo_selected`. -/
def visitImageFile (segs : List String) (name : String) (s : ScanState) :
    Except Unit (ScanState × Bool) :=
  let key := String.intercalate "/" (segs ++ [name])
  let matched := s.existing.countP (fun kv => kv.1 == key)
  if 2 ≤ matched then Except.error ()
  else if matched = 1 then
    let s1 : ScanState := { s with
      existing := s.existing.map fun kv => if kv.1 = key then (kv.1, true) else kv }
    match s1.persistentDB.filter (fun r => r.path == pyPathStr segs && r.filename == name) with
    | [r] => Except.ok (s1, r.selected)
    | _ => Except.error ()
  else
    Except.ok ({ s with
      persistentDB := s.persistentDB ++
        [{ rowid := s.nextId, path := pyPathStr segs, filename := name, selected := false }]
      nextId := s.nextId + 1 }, false)

mutual

/-- One iteration of the `scan_directory` walk (container.py lines 804-853):
handle a single entry of the directory at `segs`, updating the accumulated
`(num_photos, num_albums, directory_selected)`.  A subdirectory is scanned
depth-first; when it turns out non-empty its `NumPhotos` row has already been
appended (the emission at lines 855-863 runs before the recursive call
returns) and the parent counts it as an album.  Non-image files are logged
and skipped. -/
def scanEntry (segs : List String) :
    FSEntry → ScanState × Nat × Nat × Option PhotoDirectorySelection →
    Except Unit (ScanState × Nat × Nat × Option PhotoDirectorySelection)
  | .file name isImg, (s, np, na, dsel) =>
    if isImg then
      match visitImageFile segs name { s with totalPhotos := s.totalPhotos + 1 } with
      | .error e => .error e
      | .ok (s1, photoSel) =>
        Except.ok (s1, np + 1, na, combinePhotoSel dsel photoSel)
    else
      Except.ok (s, np, na, dsel)
  | .dir name es, (s, np, na, dsel) =>
    match scanEntries (segs ++ [name]) es (s, 0, 0, none) with
    | .error e => .error e
    | .ok (s1, cnp, cna, cdsel) =>
      if cnp ≠ 0 ∨ cna ≠ 0 then
        match cdsel with
        | none => Except.error ()
        | some cs =>
          let (pfx, dname) := scanRowKey (segs ++ [name])
          let s2 : ScanState := { s1 with
            aggRows := s1.aggRows ++
              [{ parent_path := pfx, directory := dname, num_photos := cnp,
                 num_albums := cna, selected := cs.val }]
            totalAlbums := s1.totalAlbums + 1 }
          Except.ok (s2, np, na + 1, combineDirSel dsel (some cs))
      else
        Except.ok (s1, np, na, dsel)

/-- The `for path in ... iterdir()` loop of `scan_directory` over the entries
of the directory at `segs`, in iteration order. -/
def scanEntries (segs : List String) :
    List FSEntry → ScanState × Nat × Nat × Option PhotoDirectorySelection →
    Except Unit (ScanState × Nat × Nat × Option PhotoDirectorySelection)
  | [], acc => Except.ok acc
  | e :: rest, acc =>
    match scanEntry segs e acc with
    | .error err => .error err
    | .ok acc1 => scanEntries segs rest acc1

end

/-- `PhotoContainer.rescan` (container.py lines 783-888, excluding `reorder`):
clear the Aggregate Store, seed `ExistingFiles` with
`os.path.join(path, filename)` for every catalogued photo, walk the root, and
append the root's own aggregate row when the root is non-empty.  The lost-file
pass only logs warnings and clears `ExistingFiles`. -/
def rescanModel (rootEntries : List FSEntry) (oldDB : List PhotoRow) (nextId : Nat) :
    Except Unit ScanState :=
  let s0 : ScanState := {
    persistentDB := oldDB
    nextId := nextId
    existing := oldDB.map fun r => (pyJoin r.path r.filename, false)
    aggRows := []
    totalPhotos := 0
    totalAlbums := 0 }
  match scanEntries [] rootEntries (s0, 0, 0, none) with
  | .error e => .error e
  | .ok (s1, np, na, dsel) =>
    if np ≠ 0 ∨ na ≠ 0 then
      match dsel with
      | none => Except.error ()
      | some cs =>
        Except.ok { s1 with
          aggRows := s1.aggRows ++
            [{ parent_path := none, directory := none, num_photos := np,
               num_albums := na, selected := cs.val }]
          existing := [] }
    else Except.ok { s1 with existing := [] }

/-! ## `CurrentDirectoryInfo._load_pages` (claims C6 and C7) -/

/-- The constructor arguments of a `CurrentDirectoryInfo` that `_load_pages`
reads: `prefix_path`/`directory` and the optional pre-supplied counts. -/
structure DirNodeSpec where
  path : Option String
  name : Option String
  num_photos : Option Nat
  num_albums : Option Nat
deriving DecidableEq, Repr

/-- `_full_path` as the constructor computes it (container.py lines 618-626):
the empty string for the root, the directory name when there is no prefix,
`os.path.join` otherwise; a prefix without a name is a `TypeError`. -/
def fullPath : Option String → Option String → Except Unit String
  | none, none => Except.ok ""
  | none, some d => Except.ok d
  | some _, none => Except.error ()
  | some p, some d => Except.ok (pyJoin p d)

/-- An entry of a loaded page: the child `CurrentDirectoryInfo` identified by
its aggregate row, or the child `PhotoInfo` identified by its catalog row. -/
inductive PageItem where
  | dirItem (row : NumPhotosRow)
  | photoItem (row : PhotoRow)
deriving DecidableEq, Repr

/-- Appending one item to the page list (container.py lines 661-665, 678-683):
the pages are kept as the closed pages plus the page currently being filled
(`page_number` always indexes the final page); when the current page already
holds `num_items_per_page` items a fresh page is started. -/
def pagesAppend (ipp : Nat) :
    List (List PageItem) × List PageItem → PageItem → List (List PageItem) × List PageItem
  | (closed, cur), x =>
    if cur.length = ipp then (closed ++ [cur], [x]) else (closed, cur ++ [x])

/-- `CurrentDirectoryInfo._load_pages` (container.py lines 641-683) run
against given Aggregate Store and Catalog Store tables.  When the counts were
not supplied, they come from the node's own aggregate row selected by
`prefix_path == self._path AND directory == self._name` with `.one()`
(a comparison against Python `None` compiles to IS NULL; supplying only one
count is a constructor `TypeError`).  Child directories are the aggregate rows
with `prefix_path == self._full_path` — a plain string comparison, which never
matches a NULL `prefix_path` — and child photos are the catalog rows whose
`path` equals the node's image path.  Returns the pages and the resolved
`(num_photos, num_albums)`.  `ipp` is the `num_items_per_page` constructor
argument (its default, `params.NUM_ITEMS_PER_GALLERY_PAGE`, is absent from
params.py, so the model keeps it a parameter). -/
def loadPages (runtime : List NumPhotosRow) (persistent : List PhotoRow) (ipp : Nat)
    (node : DirNodeSpec) : Except Unit (List (List PageItem) × Nat × Nat) :=
  match fullPath node.path node.name with
  | .error e => .error e
  | .ok full =>
    let counts : Except Unit (Nat × Nat) :=
      match node.num_photos, node.num_albums with
      | some np, some na => Except.ok (np, na)
      | none, none =>
        match runtime.filter (fun r => r.parent_path == node.path && r.directory == node.name) with
        | [r] => Except.ok (r.num_photos, r.num_albums)
        | _ => Except.error ()
      | _, _ => Except.error ()
    match counts with
    | .error e => .error e
    | .ok (np, na) =>
      let acc0 : List (List PageItem) × List PageItem := ([], [])
      let acc1 :=
        if na ≠ 0 then
          (runtime.filter (fun r => r.parent_path == some full)).foldl
            (fun acc r => pagesAppend ipp acc (PageItem.dirItem r)) acc0
        else acc0
      let acc2 :=
        if np ≠ 0 then
          let imagePath0 : String :=
            match node.path with
            | none => ""
            | some p => p
          let imagePath : String :=
            match node.name with
            | none => imagePath0
            | some d => pyJoin imagePath0 d
          (persistent.filter (fun r => r.path == imagePath)).foldl
            (fun acc r => pagesAppend ipp acc (PageItem.photoItem r)) acc1
        else acc1
      Except.ok (acc2.1 ++ [acc2.2], np, na)

/-- The `StartExplorer` handler's first page (container.py lines 528-534):
the root `CurrentDirectoryInfo(runtime, persistent, None, None)` is created
and `get_page(0)` forces `_load_pages`. -/
def startExplorerFirstPage (runtime : List NumPhotosRow) (persistent : List PhotoRow)
    (ipp : Nat) : Except Unit (List PageItem) :=
  match loadPages runtime persistent ipp
      { path := none, name := none, num_photos := none, num_albums := none } with
  | .error e => .error e
  | .ok (pages, _, _) =>
    match pages.get? 0 with
    | some pg => Except.ok pg
    | none => Except.error ()

/-! ## Worker `GoToPage` handler (claim C5) -/

/-- A traversal-stack entry as the worker sees it: a full-image frame
(`PhotoInfo`, which has a `name` but no `get_page`) or a directory frame
(`CurrentDirectoryInfo` with its page count). -/
inductive WEntry where
  | wphoto (pid : Nat) (name : String)
  | wdir (did : Nat) (name : Option String) (numPages : Nat)
deriving DecidableEq, Repr

/-- The worker's navigation state: `directory_info` (root first, Python list
order), the per-level `page_number` list, and `current_page_id`. -/
structure WorkerNav where
  directory_info : List WEntry
  page_number : List Int
  current_page_id : Option Nat
deriving DecidableEq, Repr

/-- `entry.get_page(i)` viability: a `PhotoInfo` has no `get_page`
(AttributeError); a directory accepts any Python list index of its pages,
including negative indices down to `-numPages`. -/
def WEntry.getPageOk : WEntry → Int → Bool
  | .wphoto _ _, _ => false
  | .wdir _ _ numPages, i => -(numPages : Int) ≤ i && i < (numPages : Int)

/-- The `GoToPage` request handler (container.py lines 445-490): raise on a
stale page id; raise when the top stack frame IS a `CurrentDirectoryInfo`
(the guard at lines 448-449 tests `isinstance(directory_info[-1],
CurrentDirectoryInfo)` and raises when it holds); `Up` below depth 2 raises,
otherwise pops the top frame with a `None` title; `Previous`/`Next` adjust the
top page number and reuse the top frame's name as title.  The handler then
bumps `current_page_id`, emits `DisplayNewPage`, and reloads `next_pages` via
`get_page` (which, in the source, runs after the emission; an error there is
folded into the handler's error outcome here). -/
def goToPageHandler (st : WorkerNav) (reqId : Nat) (direction : PageDirection) :
    Except Unit (WorkerNav × RespMsg) :=
  if st.current_page_id ≠ some reqId then Except.error ()
  else
    match st.directory_info.getLast? with
    | none => Except.error ()
    | some (.wdir _ _ _) => Except.error ()
    | some (.wphoto _ pname) =>
      let newId := reqId + 1
      let outcome : Except Unit (List WEntry × List Int × Option String) :=
        match direction with
        | .Up =>
          if st.directory_info.length < 2 then Except.error ()
          else Except.ok (st.directory_info.dropLast, st.page_number.dropLast, none)
        | .Previous =>
          match st.page_number.getLast? with
          | none => Except.error ()
          | some n =>
            Except.ok (st.directory_info, st.page_number.dropLast ++ [n - 1], some pname)
        | .Next =>
          match st.page_number.getLast? with
          | none => Except.error ()
          | some n =>
            Except.ok (st.directory_info, st.page_number.dropLast ++ [n + 1], some pname)
      match outcome with
      | .error e => .error e
      | .ok (stack, nums, title) =>
        match stack.getLast?, nums.getLast? with
        | some top, some pageNo =>
          if top.getPageOk pageNo then
            Except.ok
              ({ directory_info := stack, page_number := nums,
                 current_page_id := some newId },
               RespMsg.displayNewPage title true newId)
          else Except.error ()
        | _, _ => Except.error ()

/-! ## Concrete scenario inputs used by the counterexample evaluations -/

/-- C1 scenario world: a directory (aggregate row key 0) whose loaded page
holds a single photo (catalog row id 0) — what `_load_pages` builds for a
directory containing one photo. -/
def c1world : Node := Node.dir 0 [Node.photo 0]

/-- C1 scenario initial state: the photo unselected (store and object cache),
the directory aggregate `Not` = 0 (store and object cache), exactly as a fresh
`_load_pages` of a fully unselected directory produces. -/
def c1s0 : SelStores := {
  photoDB := fun _ => PyVal.bool false
  dirDB := fun _ => 0
  photoCache := fun _ => PyVal.bool false
  dirCache := fun _ => some .Not }

/-- C4 scenario state: the directory's aggregate row stores 2 (`All`) and its
`_selection` cache is not yet populated. -/
def c4s : SelStores := {
  photoDB := fun _ => PyVal.bool false
  dirDB := fun _ => 2
  photoCache := fun _ => PyVal.none
  dirCache := fun _ => none }

/-- C8 scenario state: a childless directory whose aggregate row stores 0
(`Not`), cache populated. -/
def c8s : SelStores := {
  photoDB := fun _ => PyVal.bool false
  dirDB := fun _ => 0
  photoCache := fun _ => PyVal.bool false
  dirCache := fun _ => some .Not }

/-- The filesystem for the C6/C9 scenarios: the photo root holds one image
file directly at top level. -/
def rootPhotoFS : List FSEntry := [FSEntry.file "img.jpg" true]

/-- The pre-rescan Catalog Store for the C9 scenario: the same root-level
photo is already catalogued (path `"."`, as the scanner itself records
root-level photos) and is selected. -/
def c9oldDB : List PhotoRow :=
  [{ rowid := 1, path := ".", filename := "img.jpg", selected := true }]

/-- C5 scenario worker state: the explorer has just opened, the traversal
stack holds only the root directory (one page), page id 0 is displayed. -/
def c5nav : WorkerNav := {
  directory_info := [WEntry.wdir 0 none 1]
  page_number := [0]
  current_page_id := some 0 }

/-! ## Helper lemmas -/

/-- Deferring a session's edits accumulates them, in order, into the pending
lists of the respective stores, leaving both committed tables untouched. -/
theorem execAll_state (es : List SessionEdit) : ∀ s : SessionPair,
    s.execAll es = {
      runtimeCommitted := s.runtimeCommitted
      runtimePending := s.runtimePending ++ runtimeEdits es
      persistentCommitted := s.persistentCommitted
      persistentPending := s.persistentPending ++ persistentEdits es } := by
  induction es with
  | nil =>
    intro s
    simp [SessionPair.execAll, runtimeEdits, persistentEdits]
  | cons e rest ih =>
    intro s
    have h1 : s.execAll (e :: rest) = (s.exec e).execAll rest := rfl
    rw [h1, ih]
    cases e with
    | runtime a => simp [SessionPair.exec, runtimeEdits, persistentEdits]
    | persistent c => simp [SessionPair.exec, runtimeEdits, persistentEdits]

/-- The poll loop only ever hands back a message carrying exactly the current
page id. -/
theorem pollLoop_ok_pageId (cur : Nat) : ∀ (q rest : List RespMsg) (m : RespMsg),
    pollLoop cur q = Except.ok (rest, some m) → m.updateId = some cur := by
  intro q
  induction q with
  | nil =>
    intro rest m h
    simp [pollLoop] at h
  | cons hd tl ih =>
    intro rest m h
    cases hd with
    | displayNewPage t d n => simp [pollLoop] at h
    | update pid payload =>
      by_cases h1 : pid < cur
      · rw [pollLoop] at h
        simp [h1] at h
        exact ih _ _ h
      · by_cases h2 : pid > cur
        · rw [pollLoop] at h
          simp [h1, h2] at h
        · have h3 : pid = cur := by omega
          rw [pollLoop] at h
          simp [h1, h2] at h
          rw [← h.2, RespMsg.updateId, h3]

/-- A cached `PhotoInfo._selection` is returned as-is by the getter. -/
theorem photoSelectedGet_cached (s : SelStores) (pid : Nat) (b : Bool)
    (h : s.photoCache pid = PyVal.bool b) :
    photoSelectedGet s pid = (s, PyVal.bool b) := by
  simp [photoSelectedGet, h]

/-- A populated `CurrentDirectoryInfo._selection` cache makes the getter skip
the store read; the property still evaluates to `None`. -/
theorem dirSelectedGet_cached (s : SelStores) (did : Nat) (c : PhotoDirectorySelection)
    (h : s.dirCache did = some c) :
    dirSelectedGet s did = Except.ok (s, PyVal.none) := by
  simp [dirSelectedGet, h]

/-! ## The claims -/

/-- C2 (confirmed).  Transactionality of an explorer session: with both
sessions clean at `start()`, deferring selection edits E1..En and then
processing `CommitChanges` with `save = False` leaves both committed stores
exactly as they were at `start()`, while `save = True` leaves each committed
store equal to its start state with E1..En applied in order; the one handler
commits or rolls back both stores together. -/
theorem c2_session_transactionality (s0 : SessionPair) (es : List SessionEdit)
    (hr : s0.runtimePending = []) (hp : s0.persistentPending = []) :
    (commitChangesHandler false (s0.execAll es)).persistentCommitted = s0.persistentCommitted
    ∧ (commitChangesHandler false (s0.execAll es)).runtimeCommitted = s0.runtimeCommitted
    ∧ (commitChangesHandler true (s0.execAll es)).persistentCommitted
        = (persistentEdits es).foldl applyCatalogEdit s0.persistentCommitted
    ∧ (commitChangesHandler true (s0.execAll es)).runtimeCommitted
        = (runtimeEdits es).foldl applyAggregateEdit s0.runtimeCommitted := by
  rw [execAll_state]
  simp [commitChangesHandler, hr, hp]

/-- Concrete instance of C2: one catalog edit, committed and rolled back. -/
def c2s0 : SessionPair := {
  runtimeCommitted := [{ parent_path := none, directory := none, num_photos := 1,
                         num_albums := 0, selected := 0 }]
  runtimePending := []
  persistentCommitted := [{ rowid := 1, path := ".", filename := "img.jpg", selected := false }]
  persistentPending := [] }

/-- The edits of the concrete C2 session: select photo 1, then mark the root
aggregate `All`. -/
def c2es : List SessionEdit :=
  [SessionEdit.persistent { rowid := 1, value := true },
   SessionEdit.runtime { parent_path := none, directory := none, value := 2 }]

/-- Witness for C2 at a concrete session. -/
theorem c2_session_transactionality_witness :
    ((commitChangesHandler false (c2s0.execAll c2es)).persistentCommitted
        = c2s0.persistentCommitted
      ∧ (commitChangesHandler false (c2s0.execAll c2es)).runtimeCommitted
        = c2s0.runtimeCommitted
      ∧ (commitChangesHandler true (c2s0.execAll c2es)).persistentCommitted
        = (persistentEdits c2es).foldl applyCatalogEdit c2s0.persistentCommitted
      ∧ (commitChangesHandler true (c2s0.execAll c2es)).runtimeCommitted
        = (runtimeEdits c2es).foldl applyAggregateEdit c2s0.runtimeCommitted)
    ∧ (commitChangesHandler true (c2s0.execAll c2es)).persistentCommitted
        = [{ rowid := 1, path := ".", filename := "img.jpg", selected := true }] :=
  ⟨c2_session_transactionality c2s0 c2es rfl rfl, rfl⟩

/-- C3 (confirmed).  Staleness filtering in `get_view_update`: (a) a returned
message always carries exactly the current page id — in particular never one
below it; (b) a queued message for an earlier page is silently discarded;
(c) a message for a later page raises. -/
theorem c3_staleness_filtering (cur : Nat) :
    (∀ (q rest : List RespMsg) (m : RespMsg),
        get_view_update false (some cur) q = Except.ok (rest, some m) →
        m.updateId = some cur)
    ∧ (∀ (pid payload : Nat) (q : List RespMsg), pid < cur →
        get_view_update false (some cur) (RespMsg.update pid payload :: q)
          = get_view_update false (some cur) q)
    ∧ (∀ (pid payload : Nat) (q : List RespMsg), cur < pid →
        get_view_update false (some cur) (RespMsg.update pid payload :: q)
          = Except.error ()) := by
  refine ⟨?_, ?_, ?_⟩
  · intro q rest m h
    simp [get_view_update] at h
    exact pollLoop_ok_pageId cur q rest m h
  · intro pid payload q hlt
    simp [get_view_update, pollLoop, hlt]
  · intro pid payload q hgt
    have h1 : ¬ pid < cur := by omega
    simp [get_view_update, pollLoop, h1, hgt]

/-- Witness for C3 at a concrete queue: current page 5, a stale message for
page 3 is skipped, the page-5 message is returned, a page-7 message raises. -/
theorem c3_staleness_filtering_witness :
    (RespMsg.update 5 7).updateId = some 5
    ∧ get_view_update false (some 5) [RespMsg.update 3 0, RespMsg.update 5 7]
        = get_view_update false (some 5) [RespMsg.update 5 7]
    ∧ get_view_update false (some 5) [RespMsg.update 7 0] = Except.error () :=
  ⟨(c3_staleness_filtering 5).1 [RespMsg.update 3 0, RespMsg.update 5 7] []
      (RespMsg.update 5 7) (by rfl),
   (c3_staleness_filtering 5).2.1 3 0 [RespMsg.update 5 7] (by decide),
   (c3_staleness_filtering 5).2.2 7 0 [] (by decide)⟩

/-- C10 (confirmed).  Every facade request method — `request_go_into_page`,
`request_goto_page`, `request_selection` and `request_select_all` — raises,
enqueuing nothing, when called before `start()` has completed
(`_current_displayed_page_id is None`), while a navigation is in flight
(`_opening_page`), or with a page id other than the currently displayed one. -/
theorem c10_facade_request_guards (st : FacadeState) (pid idx : Nat)
    (d : PageDirection) (b : Bool)
    (h : st.opening = true ∨ st.currentId = none ∨ st.currentId ≠ some pid) :
    request_go_into_page st pid idx = Except.error ()
    ∧ request_goto_page st pid d = Except.error ()
    ∧ request_selection st pid idx b = Except.error ()
    ∧ request_select_all st pid b = Except.error () := by
  have hg : facadeGuard st pid = true := by
    rcases h with h | h | h
    · simp [facadeGuard, h]
    · simp [facadeGuard, h]
    · cases hc : st.currentId with
      | none => simp [facadeGuard, hc]
      | some c =>
        have hne : c ≠ pid := by
          intro he
          exact h (by rw [hc, he])
        simp [facadeGuard, hc, hne]
  exact ⟨by simp [request_go_into_page, hg], by simp [request_goto_page, hg],
    by simp [request_selection, hg], by simp [request_select_all, hg]⟩

/-- Witness for C10: page 1 is displayed, a request for page 2 raises in all
four methods. -/
theorem c10_facade_request_guards_witness :
    request_go_into_page { opening := false, currentId := some 1, requests := [] } 2 0
      = Except.error ()
    ∧ request_goto_page { opening := false, currentId := some 1, requests := [] } 2
        PageDirection.Next = Except.error ()
    ∧ request_selection { opening := false, currentId := some 1, requests := [] } 2 0 true
      = Except.error ()
    ∧ request_select_all { opening := false, currentId := some 1, requests := [] } 2 true
      = Except.error () :=
  c10_facade_request_guards { opening := false, currentId := some 1, requests := [] } 2 0
    PageDirection.Next true (by simp)

/-- The root `CurrentDirectoryInfo(runtime, persistent, None, None)` as the
`StartExplorer` handler constructs it. -/
def rootNodeSpec : DirNodeSpec :=
  { path := none, name := none, num_photos := none, num_albums := none }

/-- C1 (code bug).  The aggregate-consistency invariant fails after a single
photo selection write: in a directory with one unselected photo, selecting the
photo stores the flag but leaves `PhotoInfo._selection` stale, so
`_child_changed` recomputes from the stale cache and records the directory's
aggregate as `Partial`, while the TriState combination of its children's
current states is `All`. -/
theorem c1_aggregate_invariant_fails_on_photo_select :
    (setSelectedAt c1world [0] (PyVal.bool true) c1s0).map
        (fun s => (PhotoDirectorySelection.value_to_enum (s.dirDB 0),
          specCombine (childStoredStates s c1world)))
      = Except.ok (some PhotoDirectorySelection.Part, some PhotoDirectorySelection.All)
    ∧ PhotoDirectorySelection.Part ≠ PhotoDirectorySelection.All :=
  ⟨rfl, by decide⟩

/-- C4 (code bug).  Reading `selected` on a directory whose aggregate row
stores 2 (`All`) loads and caches the decoded `All`, but the getter body has
no return statement, so the property evaluates to Python `None` rather than
the stored tri-state. -/
theorem c4_directory_selected_getter_yields_none :
    (dirSelectedGet c4s 0).map (fun p => (p.2, p.1.dirCache 0))
      = Except.ok (PyVal.none, some PhotoDirectorySelection.All)
    ∧ PhotoDirectorySelection.value_to_enum (c4s.dirDB 0) = some PhotoDirectorySelection.All
    ∧ PyVal.none ≠ PyVal.sel PhotoDirectorySelection.All :=
  ⟨rfl, rfl, by decide⟩

/-- C5 (code bug).  With the root directory frame on top of the traversal
stack and a matching page id, `GoToPage` with `Next` or `Previous` raises
instead of advancing the page: the guard at container.py lines 448-449 raises
exactly when the top frame IS a `CurrentDirectoryInfo`. -/
theorem c5_goto_raises_on_directory_frame :
    goToPageHandler c5nav 0 PageDirection.Next = Except.error ()
    ∧ goToPageHandler c5nav 0 PageDirection.Previous = Except.error () :=
  ⟨rfl, rfl⟩

/-- C6 (code bug).  Pagination fails at the root: after rescanning a photo
root holding one top-level image, the root's `_load_pages` resolves counts
`num_photos = 1, num_albums = 0` but produces the single empty page `[[]]` —
the scanner records the photo's path as `"."` while the root queries for
`""` — so the page lengths sum to 0, not `num_subdirectories + num_photos`. -/
theorem c6_root_pagination_sum_mismatch :
    (rescanModel rootPhotoFS [] 1).map
        (fun st => (loadPages st.aggRows st.persistentDB 2 rootNodeSpec).map
          (fun r => ((r.1.map List.length).sum, r.2.1 + r.2.2)))
      = Except.ok (Except.ok (0, 1))
    ∧ (0 : Nat) ≠ 1 :=
  ⟨rfl, by decide⟩

/-- C7 (code bug).  A rescan that discovers zero photos writes zero Aggregate
Store rows — and then `start()` does not succeed: the root `_load_pages` runs
`.one()` on an empty `NumPhotos` result and raises instead of reporting a
"no photos" page. -/
theorem c7_empty_catalog_start_raises :
    (rescanModel [] [] 1).map ScanState.aggRows = Except.ok []
    ∧ (rescanModel [] [] 1).map
        (fun st => startExplorerFirstPage st.aggRows st.persistentDB 2)
      = Except.ok (Except.error ()) :=
  ⟨rfl, rfl⟩

/-- C8 counterexample.  Writing `Partial` directly to a directory's
`selected` property raises no error and mutates the store: on a childless
directory whose aggregate row holds 0 (`Not`), the write succeeds and leaves
the row holding 2 — `Partial` is truthy, so the setter stores `All.value`. -/
theorem c8_partial_write_counterexample :
    (setSelectedAt (Node.dir 0 []) [] (PyVal.sel PhotoDirectorySelection.Part) c8s).map
        (fun s => s.dirDB 0) = Except.ok 2
    ∧ c8s.dirDB 0 = 0 :=
  ⟨rfl, rfl⟩

/-- C8 amended (corrected).  Writing `Partial` directly is not rejected and
reaches the stores: a directory write (with `_selection` cached) succeeds and
stores `All.value` into its aggregate row, because the enum member is truthy
and the guard compares against the getter's `None`; a photo write (with its
flag cached) succeeds, stores the raw `Partial` value into the photo's
`selected` column, and up-propagates `Partial` into the parent's aggregate
row. -/
theorem c8_partial_write_amended (s t : SelStores) (did dp pid : Nat) (b : Bool)
    (c : PhotoDirectorySelection)
    (hs : s.dirCache did = some c) (ht : t.photoCache pid = PyVal.bool b) :
    (setSelectedAt (Node.dir did []) [] (PyVal.sel PhotoDirectorySelection.Part) s).map
        (fun s2 => s2.dirDB did)
      = Except.ok PhotoDirectorySelection.All.val
    ∧ (setSelectedAt (Node.dir dp [Node.photo pid]) [0]
          (PyVal.sel PhotoDirectorySelection.Part) t).map
        (fun t2 => (t2.photoDB pid, t2.dirDB dp))
      = Except.ok (PyVal.sel PhotoDirectorySelection.Part, PhotoDirectorySelection.Part.val) := by
  constructor
  · simp [setSelectedAt, Node.atPath, dirSelectedGet_cached s did c hs, PyVal.truthy,
      setSelectedNoUpList, PhotoDirectorySelection.val, Except.map]
  · simp [setSelectedAt, Node.atPath, photoSelectedGet_cached t pid b ht, childChanged,
      PhotoDirectorySelection.val, Except.map]

/-- Witness for the amended C8 at the concrete C8 state. -/
theorem c8_partial_write_amended_witness :
    (setSelectedAt (Node.dir 0 []) [] (PyVal.sel PhotoDirectorySelection.Part) c8s).map
        (fun s2 => s2.dirDB 0)
      = Except.ok PhotoDirectorySelection.All.val
    ∧ (setSelectedAt (Node.dir 1 [Node.photo 0]) [0]
          (PyVal.sel PhotoDirectorySelection.Part) c8s).map
        (fun t2 => (t2.photoDB 0, t2.dirDB 1))
      = Except.ok (PyVal.sel PhotoDirectorySelection.Part, PhotoDirectorySelection.Part.val) :=
  c8_partial_write_amended c8s c8s 0 1 0 false PhotoDirectorySelection.Not rfl rfl

/-- C9 (code bug).  A rescan re-inserts an already-catalogued root-level
photo: the `ExistingFiles` reconciliation keys are built with
`os.path.join(path, filename)` (`"./img.jpg"`), but the walk looks files up by
`str(relative_path)` (`"img.jpg"`), so the catalogued root photo is treated as
newly discovered and a duplicate `PhotoListV1` row with `selected = false` is
appended. -/
theorem c9_rescan_reinserts_root_photo :
    c9oldDB = [{ rowid := 1, path := ".", filename := "img.jpg", selected := true }]
    ∧ (rescanModel rootPhotoFS c9oldDB 2).map ScanState.persistentDB
      = Except.ok (c9oldDB ++
          [{ rowid := 2, path := ".", filename := "img.jpg", selected := false }]) :=
  ⟨rfl, rfl⟩

end Snekframe
